import Mathlib

/-!
Verification of the nearest-location ranking component of the EcoMatrix
repository.  The definitions below are a shallow embedding of the Python
sources:

* `src/app.py`        — Flask handler `find_nearby`, helpers
                        `calculate_distance`, `is_within_bounds`, the
                        `FIXED_AREA` bounds and the `LOCATIONS` fixture;
* `src/tools/map.py`  — `LocationTool.find_nearby_locations`,
                        `is_within_service_area`, `_filter_by_query`,
                        `_generate_location_response`;
* `src/config.py`     — `Config.DEFAULT_AREA` / `Config.LOCATIONS`
                        (default values, identical to `app.py`'s copies).

Coordinates and bounds are embedded as exact rationals (the Python float
literals denote the same decimal values); the transcendental haversine
computation is embedded over the real numbers, idealising IEEE-754 float
arithmetic by exact real arithmetic.  Python's `list.sort` (Timsort) is a
stable sort with respect to the key order; it is embedded as a stable
insertion sort, proved sorted, stable and a permutation below.
-/

/-- A Python scalar value as it may arrive in the JSON request body:
either a number (embedded as an exact rational) or a string.  This is
enough to express the truthiness-based presence check and the `TypeError`
raised when a string is compared against a float. -/
inductive PyVal where
  | num (x : ℚ)
  | str (s : String)
deriving DecidableEq

/-- Python truthiness of a scalar: `0`/`0.0` and `""` are falsy. -/
def PyVal.truthy : PyVal → Bool
  | .num x => decide (x ≠ 0)
  | .str s => decide (s ≠ "")

/-- Truthiness of `data.get('lat')`: `None` (absent key) is falsy. -/
def optTruthy : Option PyVal → Bool
  | none => false
  | some v => v.truthy

/-- Python `<=` between two scalars: numeric comparison on numbers,
`TypeError` (modelled as `Except.error`) if either side is a string. -/
def pyLe : PyVal → PyVal → Except Unit Bool
  | .num x, .num y => .ok (decide (x ≤ y))
  | _, _ => .error ()

/-- A point of interest, `{"id": …, "name": …, "type": …, "lat": …,
"lng": …, "description": …}` from the `LOCATIONS` fixture. -/
structure POI where
  id : ℤ
  name : String
  type : String
  lat : ℚ
  lng : ℚ
  description : String
deriving DecidableEq

/-- The 8-point fixture list, duplicated verbatim in `src/app.py`
(`LOCATIONS`) and `src/config.py` (`Config.LOCATIONS`). -/
def LOCATIONS : List POI :=
  [ ⟨1, "Butter Shop A", "shop", 40.7140, -74.0070, "Fresh dairy and butter products"⟩,
    ⟨2, "Hammer Shop B", "shop", 40.7160, -74.0050, "Hardware tools and equipment"⟩,
    ⟨3, "House Alpha", "house", 40.7120, -74.0080, "Residential building with modern amenities"⟩,
    ⟨4, "House Beta", "house", 40.7180, -74.0040, "Cozy family home"⟩,
    ⟨5, "Coffee Corner C", "shop", 40.7100, -74.0100, "Artisan coffee and pastries"⟩,
    ⟨6, "Book Haven D", "shop", 40.7200, -74.0020, "Books, magazines, and stationery"⟩,
    ⟨7, "House Gamma", "house", 40.7150, -74.0110, "Historic townhouse"⟩,
    ⟨8, "Tech Store E", "shop", 40.7190, -74.0090, "Electronics and gadgets"⟩ ]

/-- The rectangular service-area bounding box. -/
structure Bounds where
  north : ℚ
  south : ℚ
  east : ℚ
  west : ℚ
deriving DecidableEq

/-- `FIXED_AREA["bounds"]` from `src/app.py`. -/
def FIXED_BOUNDS : Bounds := ⟨40.7228, 40.7028, -73.9960, -74.0160⟩

/-- `Config.DEFAULT_AREA["bounds"]` from `src/config.py` (env-var
defaults), used by `src/tools/map.py`; the same four values. -/
def SERVICE_BOUNDS : Bounds := ⟨40.7228, 40.7028, -73.9960, -74.0160⟩

/-- `is_within_bounds` from `src/app.py`:
`south <= lat <= north and west <= lng <= east` (inclusive on all four
edges). -/
def is_within_bounds (lat lng : ℚ) : Bool :=
  decide (FIXED_BOUNDS.south ≤ lat ∧ lat ≤ FIXED_BOUNDS.north ∧
          FIXED_BOUNDS.west ≤ lng ∧ lng ≤ FIXED_BOUNDS.east)

/-- `LocationTool.is_within_service_area` from `src/tools/map.py`: the
same inclusive comparison against the configured bounds. -/
def is_within_service_area (lat lng : ℚ) : Bool :=
  decide (SERVICE_BOUNDS.south ≤ lat ∧ lat ≤ SERVICE_BOUNDS.north ∧
          SERVICE_BOUNDS.west ≤ lng ∧ lng ≤ SERVICE_BOUNDS.east)

/-- The `south <= lat <= north and west <= lng <= east` expression as it
executes in `app.py`'s `find_nearby` on raw request values: Python's
chained comparison evaluates left to right, short-circuits on the first
`False`, and raises `TypeError` as soon as a string is compared. -/
def is_within_bounds_py (lat lng : PyVal) : Except Unit Bool := do
  let b1 ← pyLe (.num FIXED_BOUNDS.south) lat
  if !b1 then return false
  let b2 ← pyLe lat (.num FIXED_BOUNDS.north)
  if !b2 then return false
  let b3 ← pyLe (.num FIXED_BOUNDS.west) lng
  if !b3 then return false
  pyLe lng (.num FIXED_BOUNDS.east)

/-- Lowercase an ASCII character, as Python's `str.lower` acts on the
ASCII strings appearing in this code base. -/
def lowerCh (c : Char) : Char :=
  if 'A' ≤ c ∧ c ≤ 'Z' then Char.ofNat (c.toNat + 32) else c

/-- Python `s.lower()`, as a list of characters. -/
def pyLower (s : String) : List Char := s.data.map lowerCh

/-- Helper for substring search: is the first list a prefix of the
second? -/
def isPrefOf : List Char → List Char → Bool
  | [], _ => true
  | _ :: _, [] => false
  | a :: as, b :: bs => a == b && isPrefOf as bs

/-- Python's `needle in hay` substring test (true for the empty
needle). -/
def isSubOf (n : List Char) : List Char → Bool
  | [] => n.isEmpty
  | c :: t => isPrefOf n (c :: t) || isSubOf n t

/-- Python `s in t` on strings, both sides lowercased as the source
always does before testing membership. -/
def inStr (needle hay : String) : Bool := isSubOf needle.data hay.data

/-- A character Python's `str.split()` treats as a separator. -/
def isWs (c : Char) : Bool := c == ' ' || c == '\t' || c == '\n' || c == '\r'

/-- Worker for `str.split()`: accumulates the current word (reversed). -/
def splitWsAux : List Char → List Char → List (List Char)
  | [], acc => if acc.isEmpty then [] else [acc.reverse]
  | c :: cs, acc =>
    if isWs c then
      if acc.isEmpty then splitWsAux cs [] else acc.reverse :: splitWsAux cs []
    else splitWsAux cs (c :: acc)

/-- Python `s.split()` with no argument: split on whitespace runs,
producing no empty words. -/
def splitWs (l : List Char) : List (List Char) := splitWsAux l []

/-- Python `s.strip()`: drop leading and trailing whitespace. -/
def pyStrip (l : List Char) : List Char :=
  ((l.dropWhile (fun c => isWs c)).reverse.dropWhile (fun c => isWs c)).reverse

/-- The `keywords_map` dictionary from `_filter_by_query` in
`src/tools/map.py` (insertion order preserved). -/
def keywords_map : List (String × List String) :=
  [ ("coffee", ["coffee", "cafe", "espresso", "latte"]),
    ("hardware", ["hardware", "tools", "hammer", "equipment", "repair"]),
    ("books", ["book", "library", "reading", "magazine", "stationery"]),
    ("tech", ["tech", "electronics", "computer", "gadget", "phone"]),
    ("house", ["house", "home", "residential", "apartment"]),
    ("shop", ["shop", "store", "market", "retail"]) ]

/-- The relevance score `_filter_by_query` computes for one location:
keyword-category hits (10 or 5 points), generic substring hits of query
tokens longer than two characters (3 points) and a type match (5
points).  The score depends only on the query and the location's
strings, so it is defined on `POI`. -/
def scoreFor (query : String) (p : POI) : ℤ :=
  let query_lower := pyLower query
  let location_text := pyLower (p.name ++ " " ++ p.description ++ " " ++ p.type)
  let kwScore : ℤ :=
    (keywords_map.map (fun cks =>
      ((cks.2.map (fun kw =>
        if isSubOf kw.data query_lower then
          (if isSubOf kw.data location_text || isSubOf cks.1.data location_text then
            (10 : ℤ)
          else if p.type == cks.1 || isSubOf cks.1.data (pyLower p.name) then 5
          else 0)
        else 0)).sum : ℤ))).sum
  let query_words := splitWs query_lower
  let wordScore : ℤ :=
    (query_words.map (fun w =>
      if w.length > 2 && isSubOf w location_text then (3 : ℤ) else 0)).sum
  let typeScore : ℤ :=
    if query_words.any (fun w => isSubOf w (pyLower p.type)) then 5 else 0
  kwScore + wordScore + typeScore

/-- Python `math.radians`: degrees to radians. -/
noncomputable def radians (x : ℝ) : ℝ := x * Real.pi / 180

/-- Python `math.atan2 y x`, defined piecewise exactly as the C library
function it wraps. -/
noncomputable def atan2 (y x : ℝ) : ℝ :=
  if 0 < x then Real.arctan (y / x)
  else if x < 0 then
    (if 0 ≤ y then Real.arctan (y / x) + Real.pi else Real.arctan (y / x) - Real.pi)
  else
    (if 0 < y then Real.pi / 2 else if y < 0 then -(Real.pi / 2) else 0)

/-- `calculate_distance` from `src/app.py` (the copy in
`src/tools/map.py` has the same body): great-circle distance between two
latitude/longitude pairs by the haversine formula with Earth radius 6371
km.  IEEE-754 float arithmetic is idealised by real arithmetic. -/
noncomputable def calculate_distance (lat1 lng1 lat2 lng2 : ℝ) : ℝ :=
  let R : ℝ := 6371
  let lat1_rad := radians lat1
  let lat2_rad := radians lat2
  let delta_lat := radians (lat2 - lat1)
  let delta_lng := radians (lng2 - lng1)
  let a := Real.sin (delta_lat / 2) ^ 2 +
    Real.cos lat1_rad * Real.cos lat2_rad * Real.sin (delta_lng / 2) ^ 2
  let c := 2 * atan2 (Real.sqrt a) (Real.sqrt (1 - a))
  R * c

/-- Python `round(x, 3)`: rounding to three decimal places (on the reals
the measure-zero half-way tie cases of float banker's rounding are
idealised by ordinary rounding). -/
noncomputable def round3 (x : ℝ) : ℝ := ((round (x * 1000) : ℤ) : ℝ) / 1000

/-- A location dictionary after `location.copy()` plus the computed
`distance` key (and, in `_filter_by_query`, the `relevance_score` key;
`0` stands for the key being absent). -/
structure RankedPOI where
  poi : POI
  distance : ℝ
  relevance_score : ℤ

/-- Sort key of `locations_with_distance.sort(key=lambda x: x['distance'])`:
ascending distance. -/
def ledist (a b : RankedPOI) : Prop := a.distance ≤ b.distance

/-- Sort key of `filtered.sort(key=lambda x: (-score, distance))`:
descending relevance score, then ascending distance. -/
def leScore (a b : RankedPOI) : Prop :=
  b.relevance_score < a.relevance_score ∨
    (a.relevance_score = b.relevance_score ∧ a.distance ≤ b.distance)

noncomputable instance : DecidableRel ledist := fun a b =>
  inferInstanceAs (Decidable (a.distance ≤ b.distance))

noncomputable instance : DecidableRel leScore := fun a b =>
  inferInstanceAs (Decidable (_ ∨ _))

/-- Insert an element into a sorted list, in front of the first entry it
compares `≤` to: together with the fold below this is a stable sort,
the embedding of Python's stable `list.sort(key=…)`. -/
def insertIn (r : RankedPOI → RankedPOI → Prop) [DecidableRel r]
    (x : RankedPOI) : List RankedPOI → List RankedPOI
  | [] => [x]
  | y :: l => if r x y then x :: y :: l else y :: insertIn r x l

/-- Stable insertion sort by the relation `r`. -/
def isortBy (r : RankedPOI → RankedPOI → Prop) [DecidableRel r] :
    List RankedPOI → List RankedPOI
  | [] => []
  | x :: l => insertIn r x (isortBy r l)

/-- Python `int()` truncation toward zero on a real value. -/
noncomputable def pyInt (x : ℝ) : ℤ := if 0 ≤ x then ⌊x⌋ else -⌊-x⌋

/-- `_generate_location_response` from `src/tools/map.py`.  The one
operation a real-number model cannot supply is the float formatting
`f"{d:.1f}"`; it is abstracted as the parameter `fmt`.  No claim below
depends on formatted distances. -/
noncomputable def generate_location_response (fmt : ℝ → String)
    (locations : List RankedPOI) (query : String) : String :=
  match locations with
  | [] =>
    if !query.data.isEmpty then
      "I didn\x27t find any " ++ query ++
        " in your immediate area. Would you like me to help you find something else?"
    else
      "I don\x27t see any places in your immediate area right now. Could you try a different location or tell me what you\x27re looking for?"
  | [loc] =>
    let distance_text :=
      if loc.distance < 1 then fmt loc.distance ++ " kilometers" else fmt loc.distance ++ " km"
    "I found " ++ loc.poi.name ++ " about " ++ distance_text ++ " from you. " ++
      loc.poi.description ++ " Would you like directions or more information?"
  | _ =>
    let headParts : List String :=
      [if !query.data.isEmpty then "I found several options for " ++ query ++ " near you!"
       else "Here are some places near you!"]
    let mids := (locations.take 3).enum.map (fun ic =>
      let dt := if 1 ≤ ic.2.distance then fmt ic.2.distance ++ " km"
        else toString (pyInt (ic.2.distance * 1000)) ++ " meters"
      if ic.1 = 0 then "The closest is " ++ ic.2.poi.name ++ ", just " ++ dt ++ " away."
      else if ic.1 = 1 then "There\x27s also " ++ ic.2.poi.name ++ " at " ++ dt ++ "."
      else "And " ++ ic.2.poi.name ++ " is " ++ dt ++ " from you.")
    let more := if locations.length > 3 then
        ["I found " ++ toString (locations.length - 3) ++ " more options as well."]
      else []
    let finalParts := ["Which one sounds interesting, or would you like more details about any of them?"]
    String.intercalate " " (headParts ++ mids ++ more ++ finalParts)

/-- `_filter_by_query` from `src/tools/map.py`: score every location,
keep those with positive score — or all of them when the query has at
most two words — and re-sort by (descending score, ascending
distance). -/
noncomputable def filter_by_query (locations : List RankedPOI) (query : String) :
    List RankedPOI :=
  if query.data.isEmpty || (pyStrip query.data).isEmpty then locations
  else
    let query_words := splitWs (pyLower query)
    let scored := locations.map (fun e => { e with relevance_score := scoreFor query e.poi })
    let filtered := scored.filter
      (fun e => decide (0 < e.relevance_score) || decide (query_words.length ≤ 2))
    isortBy leScore filtered

/-- Per-request annotation step shared by both handlers: copy every
fixture location and add the rounded distance from the user, leaving the
original list untouched.  The distance function is a parameter so that
theorems can state that a code path computes no distances (the result is
the same for every `dist`). -/
noncomputable def annotated (dist : ℚ → ℚ → ℚ → ℚ → ℝ) (lat lng : ℚ) :
    List RankedPOI :=
  LOCATIONS.map (fun p => ⟨p, round3 (dist lat lng p.lat p.lng), 0⟩)

/-- Body of the 200 response of `/api/find-nearby` in `src/app.py`
(the wall-clock `timestamp` field is omitted from the model). -/
structure AppSuccess where
  user_location : ℚ × ℚ
  nearest_locations : List RankedPOI
  service_area : Bounds

/-- Outcome of one request to `/api/find-nearby` in `src/app.py`:
a 400 validation error, the 400 out-of-area structure, an uncaught
`TypeError` escaping the handler, or the 200 success body. -/
inductive AppResult where
  | validationError (error : String) (code : ℕ)
  | outOfArea (error : String) (code : ℕ) (service_area : Bounds) (user_location : PyVal × PyVal)
  | typeError
  | success (r : AppSuccess)

/-- The `find_nearby` handler from `src/app.py`, with the distance
function as parameter: presence test by truthiness, bounds check, then
distances to all locations, stable sort by distance, top 5.  The `query`
field is read from the request but never used by this handler. -/
noncomputable def app_find_nearby_gen (dist : ℚ → ℚ → ℚ → ℚ → ℝ)
    (latv lngv : Option PyVal) (query : String) : AppResult :=
  if !optTruthy latv || !optTruthy lngv then
    .validationError "Latitude and longitude required" 400
  else
    match latv, lngv with
    | some lv, some gv =>
      (match is_within_bounds_py lv gv with
      | .error _ => .typeError
      | .ok false => .outOfArea "Location is outside the service area" 400 FIXED_BOUNDS (lv, gv)
      | .ok true =>
        match lv, gv with
        | .num lat, .num lng =>
          let locations_with_distance := annotated dist lat lng
          let sortedL := isortBy ledist locations_with_distance
          .success ⟨(lat, lng), sortedL.take 5, FIXED_BOUNDS⟩
        | _, _ => .typeError)
    | _, _ => .validationError "Latitude and longitude required" 400

/-- The `find_nearby` handler instantiated with the haversine distance
it actually calls. -/
noncomputable def app_find_nearby (latv lngv : Option PyVal) (query : String) : AppResult :=
  app_find_nearby_gen
    (fun a b c d => calculate_distance (a : ℝ) (b : ℝ) (c : ℝ) (d : ℝ)) latv lngv query

/-- Body of the success dictionary returned by
`LocationTool.find_nearby_locations` in `src/tools/map.py` (again
without the wall-clock `timestamp`). -/
structure LocSuccess where
  user_location : ℚ × ℚ
  nearest_locations : List RankedPOI
  total_found : ℕ
  query : String
  message : String
  service_area : Bounds

/-- Outcome of `LocationTool.find_nearby_locations`. -/
inductive LocResult where
  | outOfArea (error : String) (service_area : Bounds) (user_location : ℚ × ℚ) (message : String)
  | success (r : LocSuccess)

/-- `LocationTool.find_nearby_locations` from `src/tools/map.py`, with
the distance function and the float formatter as parameters. -/
noncomputable def find_nearby_locations (dist : ℚ → ℚ → ℚ → ℚ → ℝ) (fmt : ℝ → String)
    (user_lat user_lng : ℚ) (query : String) : LocResult :=
  if !is_within_service_area user_lat user_lng then
    .outOfArea "Location is outside the service area" SERVICE_BOUNDS (user_lat, user_lng)
      "I\x27m sorry, but you\x27re outside our service area. We currently serve the downtown area."
  else
    let locations_with_distance := isortBy ledist (annotated dist user_lat user_lng)
    let filtered_locations := filter_by_query locations_with_distance query
    let nearest_locations := filtered_locations.take 5
    let response_message := generate_location_response fmt nearest_locations query
    .success ⟨(user_lat, user_lng), nearest_locations, filtered_locations.length,
      query, response_message, SERVICE_BOUNDS⟩

/-- `find_nearby_locations` instantiated with the haversine distance the
tool actually calls. -/
noncomputable def find_nearby_locations_real (fmt : ℝ → String)
    (user_lat user_lng : ℚ) (query : String) : LocResult :=
  find_nearby_locations
    (fun a b c d => calculate_distance (a : ℝ) (b : ℝ) (c : ℝ) (d : ℝ)) fmt
    user_lat user_lng query

/-- Projection used to state results about a success outcome. -/
def LocResult.totalFound : LocResult → Option ℕ
  | .success r => some r.total_found
  | _ => none

/-- Projection used to state results about a success outcome. -/
def LocResult.nearest : LocResult → Option (List RankedPOI)
  | .success r => some r.nearest_locations
  | _ => none

/-- `p` occurs strictly before `q` in the list `l`. -/
def precedesIn (l : List POI) (p q : POI) : Prop :=
  ∃ i j : Fin l.length, i < j ∧ l.get i = p ∧ l.get j = q

/-- Does a location's name or description contain the word "coffee"
(case-insensitively)? -/
def hasCoffee (p : POI) : Bool :=
  isSubOf "coffee".data (pyLower p.name) || isSubOf "coffee".data (pyLower p.description)

example : is_within_bounds 40.7128 (-74.0060) = true := by
  norm_num [is_within_bounds, FIXED_BOUNDS]

example : is_within_bounds 41 (-74.0060) = false := by
  norm_num [is_within_bounds, FIXED_BOUNDS]

example : is_within_bounds 40.7228 (-74.0060) = true := by
  norm_num [is_within_bounds, FIXED_BOUNDS]

example : is_within_bounds_py (.str "abc") (.num 1) = .error () := rfl

/-- On two numeric values the raw chained comparison never raises and
agrees with `is_within_bounds`. -/
theorem is_within_bounds_py_num (lat lng : ℚ) :
    is_within_bounds_py (.num lat) (.num lng) = .ok (is_within_bounds lat lng) := by
  simp only [is_within_bounds_py, is_within_bounds, pyLe, FIXED_BOUNDS]
  by_cases h1 : (40.7028 : ℚ) ≤ lat <;>
    by_cases h2 : lat ≤ (40.7228 : ℚ) <;>
      by_cases h3 : (-74.0160 : ℚ) ≤ lng <;>
        by_cases h4 : lng ≤ (-73.9960 : ℚ) <;>
          simp only [h1, h2, h3, h4, decide_eq_true_eq, decide_eq_false_iff_not,
            decide_eq_true, decide_eq_false] <;> rfl

example : splitWs "coffee".data = ["coffee".data] := by decide

example : (splitWs "aaaa bbbb cccc".data).length = 3 := by decide

example : isSubOf "coffee".data (pyLower "Coffee Corner C") = true := by decide

example : pyStrip "  ".data = [] := by decide

example : (LOCATIONS.map (scoreFor "coffee")) = [0, 0, 0, 0, 13, 0, 0, 0] := by decide

example : (LOCATIONS.map (scoreFor "aaaa bbbb cccc")) = [0, 0, 0, 0, 0, 0, 0, 0] := by decide

example : (LOCATIONS.map (scoreFor "zz")) = [0, 0, 0, 0, 0, 0, 0, 0] := by decide

theorem ledist_total (a b : RankedPOI) : ledist a b ∨ ledist b a :=
  le_total a.distance b.distance

theorem ledist_trans (a b c : RankedPOI) : ledist a b → ledist b c → ledist a c :=
  le_trans

theorem leScore_total (a b : RankedPOI) : leScore a b ∨ leScore b a := by
  unfold leScore
  rcases lt_trichotomy a.relevance_score b.relevance_score with h | h | h
  · exact Or.inr (Or.inl h)
  · rcases le_total a.distance b.distance with hd | hd
    · exact Or.inl (Or.inr ⟨h, hd⟩)
    · exact Or.inr (Or.inr ⟨h.symm, hd⟩)
  · exact Or.inl (Or.inl h)

theorem leScore_trans (a b c : RankedPOI) : leScore a b → leScore b c → leScore a c := by
  unfold leScore
  rintro (h1 | ⟨h1, h1d⟩) (h2 | ⟨h2, h2d⟩)
  · exact Or.inl (h2.trans h1)
  · exact Or.inl (h2 ▸ h1)
  · exact Or.inl (h1 ▸ h2)
  · exact Or.inr ⟨h1.trans h2, h1d.trans h2d⟩

theorem mem_insertIn (r : RankedPOI → RankedPOI → Prop) [DecidableRel r]
    (x y : RankedPOI) : ∀ l : List RankedPOI, y ∈ insertIn r x l ↔ y = x ∨ y ∈ l
  | [] => by simp [insertIn]
  | z :: l => by
    by_cases h : r x z
    · simp only [insertIn, if_pos h, List.mem_cons]
    · simp only [insertIn, if_neg h, List.mem_cons, mem_insertIn r x y l]
      tauto

theorem insertIn_perm (r : RankedPOI → RankedPOI → Prop) [DecidableRel r]
    (x : RankedPOI) : ∀ l : List RankedPOI, (insertIn r x l).Perm (x :: l)
  | [] => List.Perm.refl _
  | z :: l => by
    by_cases h : r x z
    · rw [insertIn, if_pos h]
    · rw [insertIn, if_neg h]
      exact ((insertIn_perm r x l).cons z).trans (List.Perm.swap x z l)

theorem isortBy_perm (r : RankedPOI → RankedPOI → Prop) [DecidableRel r] :
    ∀ l : List RankedPOI, (isortBy r l).Perm l
  | [] => List.Perm.refl _
  | x :: l =>
    (insertIn_perm r x (isortBy r l)).trans ((isortBy_perm r l).cons x)

theorem mem_isortBy (r : RankedPOI → RankedPOI → Prop) [DecidableRel r]
    (l : List RankedPOI) (y : RankedPOI) : y ∈ isortBy r l ↔ y ∈ l :=
  (isortBy_perm r l).mem_iff

/-- Inserting an element that the stability relation `R` puts before
everything already in the list preserves the sorted-and-stable pairwise
invariant. -/
theorem pairwise_insertIn {r : RankedPOI → RankedPOI → Prop} [DecidableRel r]
    (total : ∀ a b, r a b ∨ r b a) (htrans : ∀ a b c, r a b → r b c → r a c)
    {R : RankedPOI → RankedPOI → Prop} (x : RankedPOI) :
    ∀ l : List RankedPOI, (∀ y ∈ l, R x y) →
      l.Pairwise (fun a b => r a b ∧ (r b a → R a b)) →
      (insertIn r x l).Pairwise (fun a b => r a b ∧ (r b a → R a b))
  | [], _, _ => List.pairwise_singleton _ x
  | y :: t, hx, hl => by
    rcases List.pairwise_cons.mp hl with ⟨hy, ht⟩
    by_cases hxy : r x y
    · rw [insertIn, if_pos hxy]
      refine List.pairwise_cons.mpr ⟨?_, hl⟩
      intro z hz
      rcases List.mem_cons.mp hz with rfl | hz
      · exact ⟨hxy, fun _ => hx z (List.mem_cons_self _ _)⟩
      · exact ⟨htrans x y z hxy (hy z hz).1, fun _ => hx z (List.mem_cons_of_mem _ hz)⟩
    · rw [insertIn, if_neg hxy]
      refine List.pairwise_cons.mpr ⟨?_, ?_⟩
      · intro z hz
        rcases (mem_insertIn r x z t).mp hz with hzx | hz
        · subst hzx
          exact ⟨(total z y).resolve_left hxy, fun hxz => absurd hxz hxy⟩
        · exact hy z hz
      · exact pairwise_insertIn total htrans x t
          (fun z hz => hx z (List.mem_cons_of_mem _ hz)) ht

/-- The stable insertion sort is sorted with respect to `r` and, on ties
(both `r a b` and `r b a`), keeps any pairwise invariant `R` of the input
order — this is exactly stability of Python's `list.sort`. -/
theorem pairwise_isortBy {r : RankedPOI → RankedPOI → Prop} [DecidableRel r]
    (total : ∀ a b, r a b ∨ r b a) (htrans : ∀ a b c, r a b → r b c → r a c)
    {R : RankedPOI → RankedPOI → Prop} :
    ∀ l : List RankedPOI, l.Pairwise R →
      (isortBy r l).Pairwise (fun a b => r a b ∧ (r b a → R a b))
  | [], _ => List.Pairwise.nil
  | x :: t, hl => by
    rcases List.pairwise_cons.mp hl with ⟨hx, ht⟩
    exact pairwise_insertIn total htrans x (isortBy r t)
      (fun y hy => hx y ((isortBy_perm r t).mem_iff.mp hy))
      (pairwise_isortBy total htrans t ht)

theorem pairwise_trivial : ∀ l : List RankedPOI, l.Pairwise (fun _ _ => True)
  | [] => List.Pairwise.nil
  | _ :: t => List.pairwise_cons.mpr ⟨fun _ _ => trivial, pairwise_trivial t⟩

/-- Sortedness of the result, without the stability component. -/
theorem sorted_isortBy {r : RankedPOI → RankedPOI → Prop} [DecidableRel r]
    (total : ∀ a b, r a b ∨ r b a) (htrans : ∀ a b c, r a b → r b c → r a c)
    (l : List RankedPOI) : (isortBy r l).Pairwise r :=
  (pairwise_isortBy total htrans l (pairwise_trivial l)).imp (·.1)

/-- Sorting an already sorted list is the identity (Python's stable sort
leaves a sorted input untouched). -/
theorem isortBy_eq_self {r : RankedPOI → RankedPOI → Prop} [DecidableRel r] :
    ∀ l : List RankedPOI, l.Pairwise r → isortBy r l = l
  | [], _ => rfl
  | x :: t, hl => by
    rcases List.pairwise_cons.mp hl with ⟨hx, ht⟩
    rw [isortBy, isortBy_eq_self t ht]
    cases t with
    | nil => rfl
    | cons y u => rw [insertIn, if_pos (hx y (List.mem_cons_self _ _))]

/-- The two copies of the bounds check agree (the duplicated constants
are identical). -/
theorem service_area_eq_bounds (lat lng : ℚ) :
    is_within_service_area lat lng = is_within_bounds lat lng := rfl

/-- Any in-bounds coordinate pair is truthy: the box lies at positive
latitude and negative longitude, so neither coordinate can be `0.0`. -/
theorem truthy_of_within (lat lng : ℚ) (h : is_within_bounds lat lng = true) :
    (PyVal.num lat).truthy = true ∧ (PyVal.num lng).truthy = true := by
  have h' := of_decide_eq_true h
  obtain ⟨h1, _, _, h4⟩ := h'
  constructor
  · have : (0 : ℚ) < lat := lt_of_lt_of_le (by norm_num [FIXED_BOUNDS]) h1
    simp [PyVal.truthy, this.ne']
  · have : lng < 0 := lt_of_le_of_lt h4 (by norm_num [FIXED_BOUNDS])
    simp [PyVal.truthy, this.ne]

/-- Shape of the `app.py` handler's answer on an in-bounds numeric
request: the 200 body with the five nearest annotated locations. -/
theorem app_find_nearby_gen_within (dist : ℚ → ℚ → ℚ → ℚ → ℝ) (q : String)
    (lat lng : ℚ) (h : is_within_bounds lat lng = true) :
    app_find_nearby_gen dist (some (.num lat)) (some (.num lng)) q =
      .success ⟨(lat, lng), (isortBy ledist (annotated dist lat lng)).take 5, FIXED_BOUNDS⟩ := by
  obtain ⟨ht1, ht2⟩ := truthy_of_within lat lng h
  simp [app_find_nearby_gen, optTruthy, ht1, ht2, is_within_bounds_py_num, h]

/-- Shape of the `app.py` handler's answer on an out-of-bounds numeric
request with truthy coordinates: the 400 out-of-area structure, with no
dependence on the distance function. -/
theorem app_find_nearby_gen_outside (dist : ℚ → ℚ → ℚ → ℚ → ℝ) (q : String)
    (lat lng : ℚ) (hlat : lat ≠ 0) (hlng : lng ≠ 0)
    (h : is_within_bounds lat lng = false) :
    app_find_nearby_gen dist (some (.num lat)) (some (.num lng)) q =
      .outOfArea "Location is outside the service area" 400 FIXED_BOUNDS
        (.num lat, .num lng) := by
  simp [app_find_nearby_gen, optTruthy, PyVal.truthy, hlat, hlng,
    is_within_bounds_py_num, h]

/-- Shape of the `map.py` tool's answer on an in-bounds request. -/
theorem find_nearby_locations_within (dist : ℚ → ℚ → ℚ → ℚ → ℝ) (fmt : ℝ → String)
    (q : String) (lat lng : ℚ) (h : is_within_service_area lat lng = true) :
    find_nearby_locations dist fmt lat lng q =
      .success ⟨(lat, lng),
        (filter_by_query (isortBy ledist (annotated dist lat lng)) q).take 5,
        (filter_by_query (isortBy ledist (annotated dist lat lng)) q).length,
        q,
        generate_location_response fmt
          ((filter_by_query (isortBy ledist (annotated dist lat lng)) q).take 5) q,
        SERVICE_BOUNDS⟩ := by
  simp [find_nearby_locations, h]

/-- Shape of the `map.py` tool's answer on an out-of-bounds request:
the out-of-area structure, with no dependence on the distance
function. -/
theorem find_nearby_locations_outside (dist : ℚ → ℚ → ℚ → ℚ → ℝ) (fmt : ℝ → String)
    (q : String) (lat lng : ℚ) (h : is_within_service_area lat lng = false) :
    find_nearby_locations dist fmt lat lng q =
      .outOfArea "Location is outside the service area" SERVICE_BOUNDS (lat, lng)
        "I\x27m sorry, but you\x27re outside our service area. We currently serve the downtown area." := by
  simp [find_nearby_locations, h]

/-- Membership in the annotated list: exactly the fixture locations,
each carrying its rounded distance from the user. -/
theorem mem_annotated (dist : ℚ → ℚ → ℚ → ℚ → ℝ) (lat lng : ℚ) (e : RankedPOI) :
    e ∈ annotated dist lat lng ↔
      ∃ p ∈ LOCATIONS, e = ⟨p, round3 (dist lat lng p.lat p.lng), 0⟩ := by
  simp only [annotated, List.mem_map]
  constructor
  · rintro ⟨p, hp, rfl⟩; exact ⟨p, hp, rfl⟩
  · rintro ⟨p, hp, rfl⟩; exact ⟨p, hp, rfl⟩

/-- Elements of a filtered result originate in the input list, keeping
their location and distance; on a non-trivial query the relevance score
has been recomputed. -/
theorem mem_filter_by_query (l : List RankedPOI) (q : String) (e : RankedPOI)
    (he : e ∈ filter_by_query l q) :
    ∃ e0 ∈ l, e.poi = e0.poi ∧ e.distance = e0.distance := by
  by_cases hc : (q.data.isEmpty || (pyStrip q.data).isEmpty) = true
  · rw [filter_by_query, if_pos hc] at he
    exact ⟨e, he, rfl, rfl⟩
  · rw [filter_by_query, if_neg hc] at he
    have he2 := (mem_isortBy _ _ _).mp he
    have he3 := (List.mem_filter.mp he2).1
    rcases List.mem_map.mp he3 with ⟨e0, he0, rfl⟩
    exact ⟨e0, he0, rfl, rfl⟩

/-- On a non-trivial query every element of the filtered result is an
input element with its score recomputed by `scoreFor`. -/
theorem mem_filter_by_query_scored (l : List RankedPOI) (q : String) (e : RankedPOI)
    (hq : (q.data.isEmpty || (pyStrip q.data).isEmpty) = false)
    (he : e ∈ filter_by_query l q) :
    ∃ e0 ∈ l, e = { e0 with relevance_score := scoreFor q e0.poi } := by
  rw [filter_by_query, if_neg (by simp [hq])] at he
  have he2 := (mem_isortBy _ _ _).mp he
  have he3 := (List.mem_filter.mp he2).1
  rcases List.mem_map.mp he3 with ⟨e0, he0, rfl⟩
  exact ⟨e0, he0, rfl⟩

/-- Claim C2: every coordinate pair inside the box, including pairs on a
bounding edge, passes the inclusive bounds checks, and neither handler
takes the out-of-area branch for it: both return a success value, for
every distance function, formatter and query. -/
theorem claim_C2_inclusive_bounds (lat lng : ℚ)
    (h1 : FIXED_BOUNDS.south ≤ lat) (h2 : lat ≤ FIXED_BOUNDS.north)
    (h3 : FIXED_BOUNDS.west ≤ lng) (h4 : lng ≤ FIXED_BOUNDS.east) :
    is_within_bounds lat lng = true ∧ is_within_service_area lat lng = true ∧
    ∀ (dist : ℚ → ℚ → ℚ → ℚ → ℝ) (fmt : ℝ → String) (q : String),
      (∃ r, app_find_nearby_gen dist (some (.num lat)) (some (.num lng)) q = .success r) ∧
      (∃ s, find_nearby_locations dist fmt lat lng q = .success s) := by
  have hb : is_within_bounds lat lng = true := decide_eq_true ⟨h1, h2, h3, h4⟩
  exact ⟨hb, (service_area_eq_bounds lat lng).trans hb, fun dist fmt q =>
    ⟨⟨_, app_find_nearby_gen_within dist q lat lng hb⟩,
     ⟨_, find_nearby_locations_within dist fmt q lat lng
          ((service_area_eq_bounds lat lng).trans hb)⟩⟩⟩

/-- Witness for C2 at the north edge of the box. -/
theorem claim_C2_witness :
    is_within_bounds 40.7228 (-74.0060) = true ∧
    is_within_service_area 40.7228 (-74.0060) = true ∧
    ∀ (dist : ℚ → ℚ → ℚ → ℚ → ℝ) (fmt : ℝ → String) (q : String),
      (∃ r, app_find_nearby_gen dist (some (.num 40.7228)) (some (.num (-74.0060))) q = .success r) ∧
      (∃ s, find_nearby_locations dist fmt 40.7228 (-74.0060) q = .success s) :=
  claim_C2_inclusive_bounds 40.7228 (-74.0060)
    (by norm_num [FIXED_BOUNDS]) (by norm_num [FIXED_BOUNDS])
    (by norm_num [FIXED_BOUNDS]) (by norm_num [FIXED_BOUNDS])

/-- Claim C10: a request whose `lat` or `lng` is present but equal to
`0.0` is rejected by the truthiness presence check with the 400
validation error; neither the bounds check nor any distance computation
is reached (the outcome is the same for every distance function). -/
theorem claim_C10_zero_is_missing (latv lngv : Option PyVal) (q : String)
    (h : latv = some (.num 0) ∨ lngv = some (.num 0)) :
    ∀ dist : ℚ → ℚ → ℚ → ℚ → ℝ,
      app_find_nearby_gen dist latv lngv q =
        .validationError "Latitude and longitude required" 400 := by
  intro dist
  rcases h with rfl | rfl
  · simp [app_find_nearby_gen, optTruthy, PyVal.truthy]
  · simp [app_find_nearby_gen, optTruthy, PyVal.truthy]

/-- Witness for C10: latitude present and equal to zero. -/
theorem claim_C10_witness :
    app_find_nearby_gen (fun _ _ _ _ => (0 : ℝ)) (some (.num 0)) (some (.num 1)) "" =
      .validationError "Latitude and longitude required" 400 :=
  claim_C10_zero_is_missing (some (.num 0)) (some (.num 1)) "" (Or.inl rfl) _

/-- Claim C6 (amended): a request whose latitude or longitude is missing
— or carries any other Python-falsy value such as `0.0` or the empty
string — is rejected immediately with the 400 validation error, before
any bounds check or distance computation (the outcome is identical for
every distance function).  A non-numeric but truthy value, however, is
not caught by this check: the bounds comparison then raises an uncaught
`TypeError` (see the counterexample). -/
theorem claim_C6_amended (dist : ℚ → ℚ → ℚ → ℚ → ℝ) (latv lngv : Option PyVal)
    (q : String) (h : optTruthy latv = false ∨ optTruthy lngv = false) :
    app_find_nearby_gen dist latv lngv q =
      .validationError "Latitude and longitude required" 400 := by
  rcases h with h | h <;> simp [app_find_nearby_gen, h]

/-- Witness for the amended C6: a request with no latitude at all. -/
theorem claim_C6_witness :
    app_find_nearby_gen (fun _ _ _ _ => (0 : ℝ)) none (some (.num 1)) "" =
      .validationError "Latitude and longitude required" 400 :=
  claim_C6_amended _ none (some (.num 1)) "" (Or.inl rfl)

/-- Counterexample to C6 as stated: a request with the non-numeric
latitude `"abc"` (a truthy string) is not rejected with the validation
error; the chained bounds comparison raises a `TypeError` that escapes
the handler. -/
theorem claim_C6_counterexample :
    app_find_nearby (some (.str "abc")) (some (.num 1)) "" = .typeError ∧
    app_find_nearby (some (.str "abc")) (some (.num 1)) "" ≠
      .validationError "Latitude and longitude required" 400 := by
  have h1 : app_find_nearby (some (.str "abc")) (some (.num 1)) "" = .typeError := rfl
  refine ⟨h1, ?_⟩
  rw [h1]
  intro h
  exact AppResult.noConfusion h

/-- Claim C1 (amended): for every numeric coordinate pair outside the
box, `find_nearby_locations` returns the out-of-area structure —
error text, service-area bounds and echoed user location — and computes
no distances (the result is the same for every distance function); the
Flask handler `find_nearby` does the same provided neither coordinate
equals `0.0` (zero coordinates are swallowed by its truthiness presence
check instead, see the counterexample). -/
theorem claim_C1_amended (dist : ℚ → ℚ → ℚ → ℚ → ℝ) (fmt : ℝ → String)
    (lat lng : ℚ) (q : String) (h : is_within_bounds lat lng = false) :
    find_nearby_locations dist fmt lat lng q =
      .outOfArea "Location is outside the service area" SERVICE_BOUNDS (lat, lng)
        "I\x27m sorry, but you\x27re outside our service area. We currently serve the downtown area." ∧
    (lat ≠ 0 → lng ≠ 0 →
      app_find_nearby_gen dist (some (.num lat)) (some (.num lng)) q =
        .outOfArea "Location is outside the service area" 400 FIXED_BOUNDS
          (.num lat, .num lng)) := by
  constructor
  · exact find_nearby_locations_outside dist fmt q lat lng
      ((service_area_eq_bounds lat lng).trans h)
  · intro hlat hlng
    exact app_find_nearby_gen_outside dist q lat lng hlat hlng h

/-- Witness for the amended C1 at latitude 41, north of the box. -/
theorem claim_C1_witness :
    find_nearby_locations (fun _ _ _ _ => (0 : ℝ)) (fun _ => "") 41 (-74.0060) "" =
      .outOfArea "Location is outside the service area" SERVICE_BOUNDS (41, -74.0060)
        "I\x27m sorry, but you\x27re outside our service area. We currently serve the downtown area." ∧
    ((41 : ℚ) ≠ 0 → (-74.0060 : ℚ) ≠ 0 →
      app_find_nearby_gen (fun _ _ _ _ => (0 : ℝ)) (some (.num 41)) (some (.num (-74.0060))) "" =
        .outOfArea "Location is outside the service area" 400 FIXED_BOUNDS
          (.num 41, .num (-74.0060))) :=
  claim_C1_amended _ _ 41 (-74.0060) "" (by norm_num [is_within_bounds, FIXED_BOUNDS])

/-- Counterexample to C1 as stated: `(0.0, -74.0060)` is a numeric
coordinate pair outside the box, yet the Flask handler returns the
validation error, not the out-of-area structure, because `0.0` is falsy
in the presence check. -/
theorem claim_C1_counterexample :
    is_within_bounds 0 (-74.0060) = false ∧
    app_find_nearby (some (.num 0)) (some (.num (-74.0060))) "" =
      .validationError "Latitude and longitude required" 400 := by
  constructor
  · norm_num [is_within_bounds, FIXED_BOUNDS]
  · rfl

/-- Claim C3: on an in-bounds request each returned entry's `distance`
field is the haversine great-circle distance (Earth radius 6371 km) from
the requester to that entry's own coordinates, rounded to three decimal
places, and each entry is one of the fixture locations. -/
theorem claim_C3_haversine_distances (lat lng : ℚ) (q : String)
    (h : is_within_bounds lat lng = true) :
    ∃ r, app_find_nearby (some (.num lat)) (some (.num lng)) q = .success r ∧
      ∀ e ∈ r.nearest_locations, e.poi ∈ LOCATIONS ∧
        e.distance =
          round3 (calculate_distance (lat : ℝ) (lng : ℝ) (e.poi.lat : ℝ) (e.poi.lng : ℝ)) := by
  refine ⟨_, app_find_nearby_gen_within _ q lat lng h, ?_⟩
  intro e he
  have he1 : e ∈ isortBy ledist
      (annotated (fun a b c d => calculate_distance (a : ℝ) (b : ℝ) (c : ℝ) (d : ℝ)) lat lng) :=
    List.mem_of_mem_take he
  have he2 := (mem_isortBy _ _ _).mp he1
  rcases (mem_annotated _ _ _ _).mp he2 with ⟨p, hp, rfl⟩
  exact ⟨hp, rfl⟩

/-- Claim C7: the in-bounds success response of `find_nearby_locations`
echoes the user location, returns at most five entries (each one a copy
of a fixture location, hence carrying id, name, type, lat, lng and
description, plus the computed distance), reports in `total_found` the
number of all matched candidates — of which the returned list is a
prefix — and carries the echoed query, the generated message string and
the service-area bounds. -/
theorem claim_C7_success_shape (dist : ℚ → ℚ → ℚ → ℚ → ℝ) (fmt : ℝ → String)
    (lat lng : ℚ) (q : String) (h : is_within_service_area lat lng = true) :
    ∃ r, find_nearby_locations dist fmt lat lng q = .success r ∧
      r.user_location = (lat, lng) ∧
      r.nearest_locations =
        (filter_by_query (isortBy ledist (annotated dist lat lng)) q).take 5 ∧
      r.nearest_locations.length ≤ 5 ∧
      r.total_found = (filter_by_query (isortBy ledist (annotated dist lat lng)) q).length ∧
      r.nearest_locations.length ≤ r.total_found ∧
      (∀ e ∈ r.nearest_locations, e.poi ∈ LOCATIONS) ∧
      r.query = q ∧
      r.message = generate_location_response fmt r.nearest_locations q ∧
      r.service_area = SERVICE_BOUNDS := by
  refine ⟨_, find_nearby_locations_within dist fmt q lat lng h, rfl, rfl, ?_, rfl, ?_, ?_,
    rfl, rfl, rfl⟩
  · rw [List.length_take]
    exact min_le_left _ _
  · rw [List.length_take]
    exact min_le_right _ _
  · intro e he
    have he1 := List.mem_of_mem_take he
    rcases mem_filter_by_query _ _ _ he1 with ⟨e0, he0, hpoi, _⟩
    have he2 := (mem_isortBy _ _ _).mp he0
    rcases (mem_annotated _ _ _ _).mp he2 with ⟨p, hp, rfl⟩
    rw [hpoi]
    exact hp

/-- The haversine body is symmetric in its two endpoints: the two delta
angles only change sign, which the squared sines cancel, and the two
cosine factors commute. -/
theorem calculate_distance_symm (lat1 lng1 lat2 lng2 : ℝ) :
    calculate_distance lat1 lng1 lat2 lng2 = calculate_distance lat2 lng2 lat1 lng1 := by
  simp only [calculate_distance, radians]
  have hlat : Real.sin ((lat1 - lat2) * Real.pi / 180 / 2) ^ 2
      = Real.sin ((lat2 - lat1) * Real.pi / 180 / 2) ^ 2 := by
    have he : (lat1 - lat2) * Real.pi / 180 / 2 = -((lat2 - lat1) * Real.pi / 180 / 2) := by
      ring
    rw [he, Real.sin_neg, neg_sq]
  have hlng : Real.sin ((lng1 - lng2) * Real.pi / 180 / 2) ^ 2
      = Real.sin ((lng2 - lng1) * Real.pi / 180 / 2) ^ 2 := by
    have he : (lng1 - lng2) * Real.pi / 180 / 2 = -((lng2 - lng1) * Real.pi / 180 / 2) := by
      ring
    rw [he, Real.sin_neg, neg_sq]
  rw [hlat, hlng,
    mul_comm (Real.cos (lat2 * Real.pi / 180)) (Real.cos (lat1 * Real.pi / 180))]

/-- Claim C9: `calculate_distance` is symmetric in its two endpoints
within the stated `1e-9` tolerance (in the real-number model it is in
fact exactly symmetric). -/
theorem claim_C9_distance_symmetry (lat1 lng1 lat2 lng2 : ℝ) :
    |calculate_distance lat1 lng1 lat2 lng2 - calculate_distance lat2 lng2 lat1 lng1| ≤
      1 / 1000000000 := by
  rw [calculate_distance_symm lat1 lng1 lat2 lng2, sub_self, abs_zero]
  norm_num

/-- Any list is pairwise ordered by its own occurrence order. -/
theorem pairwise_precedesIn (l : List POI) : l.Pairwise (precedesIn l) := by
  rw [List.pairwise_iff_get]
  intro i j hij
  exact ⟨i, j, hij, rfl, rfl⟩

/-- The annotated candidate list inherits the fixture order on the
underlying locations. -/
theorem pairwise_annotated (dist : ℚ → ℚ → ℚ → ℚ → ℝ) (lat lng : ℚ) :
    (annotated dist lat lng).Pairwise (fun a b => precedesIn LOCATIONS a.poi b.poi) :=
  (pairwise_precedesIn LOCATIONS).map _ (fun _ _ h => h)

/-- Every element of the distance-sorted candidate list is a fixture
location with its stored relevance score still zero. -/
theorem mem_sorted_candidates (dist : ℚ → ℚ → ℚ → ℚ → ℝ) (lat lng : ℚ)
    (e : RankedPOI) (he : e ∈ isortBy ledist (annotated dist lat lng)) :
    e.relevance_score = 0 ∧ e.poi ∈ LOCATIONS := by
  rcases (mem_annotated _ _ _ _).mp ((mem_isortBy _ _ _).mp he) with ⟨p, hp, rfl⟩
  exact ⟨rfl, hp⟩

/-- Claim C4: on every in-bounds request the handler's returned list is
sorted ascending by the computed distance, entries with equal distance
keep the original fixture order, and the computation is a pure function
of its input, so identical inputs give identical outputs. -/
theorem claim_C4_sorted_stable_deterministic (lat lng : ℚ) (q : String)
    (h : is_within_bounds lat lng = true) :
    ∃ r, app_find_nearby (some (.num lat)) (some (.num lng)) q = .success r ∧
      r.nearest_locations.Pairwise (fun a b => a.distance ≤ b.distance) ∧
      r.nearest_locations.Pairwise
        (fun a b => a.distance = b.distance → precedesIn LOCATIONS a.poi b.poi) ∧
      app_find_nearby (some (.num lat)) (some (.num lng)) q =
        app_find_nearby (some (.num lat)) (some (.num lng)) q := by
  refine ⟨_, app_find_nearby_gen_within _ q lat lng h, ?_, ?_, rfl⟩
  · exact List.Pairwise.sublist (List.take_sublist 5 _)
      ((pairwise_isortBy ledist_total ledist_trans _ (pairwise_annotated _ lat lng)).imp (·.1))
  · exact List.Pairwise.sublist (List.take_sublist 5 _)
      ((pairwise_isortBy ledist_total ledist_trans _ (pairwise_annotated _ lat lng)).imp
        (fun hab heq => hab.2 (le_of_eq heq.symm)))

/-- Witness for C4 at the fixture's center coordinate. -/
theorem claim_C4_witness :
    ∃ r, app_find_nearby (some (.num 40.7128)) (some (.num (-74.0060))) "coffee" = .success r ∧
      r.nearest_locations.Pairwise (fun a b => a.distance ≤ b.distance) ∧
      r.nearest_locations.Pairwise
        (fun a b => a.distance = b.distance → precedesIn LOCATIONS a.poi b.poi) ∧
      app_find_nearby (some (.num 40.7128)) (some (.num (-74.0060))) "coffee" =
        app_find_nearby (some (.num 40.7128)) (some (.num (-74.0060))) "coffee" :=
  claim_C4_sorted_stable_deterministic 40.7128 (-74.0060) "coffee"
    (by norm_num [is_within_bounds, FIXED_BOUNDS])

/-- On the fixture, the query `"coffee"` scores 13 on every location
whose name or description contains "coffee" and 0 on every other
location. -/
theorem coffee_scores : ∀ p ∈ LOCATIONS,
    (hasCoffee p = true ∧ scoreFor "coffee" p = 13) ∨
    (hasCoffee p = false ∧ scoreFor "coffee" p = 0) := by decide

/-- Elements of the filtered pipeline list (non-trivial query) are
fixture locations carrying their recomputed relevance score. -/
theorem score_of_mem_filter (dist : ℚ → ℚ → ℚ → ℚ → ℝ) (lat lng : ℚ) (q : String)
    (e : RankedPOI) (hq : (q.data.isEmpty || (pyStrip q.data).isEmpty) = false)
    (he : e ∈ filter_by_query (isortBy ledist (annotated dist lat lng)) q) :
    e.poi ∈ LOCATIONS ∧ e.relevance_score = scoreFor q e.poi := by
  rcases mem_filter_by_query_scored _ _ _ hq he with ⟨e0, he0, rfl⟩
  rcases (mem_annotated _ _ _ _).mp ((mem_isortBy _ _ _).mp he0) with ⟨p, hp, rfl⟩
  exact ⟨hp, rfl⟩

/-- On a non-trivial query the filtered list is sorted by
(descending score, ascending distance). -/
theorem sorted_filter_by_query (l : List RankedPOI) (q : String)
    (hq : (q.data.isEmpty || (pyStrip q.data).isEmpty) = false) :
    (filter_by_query l q).Pairwise leScore := by
  rw [filter_by_query, if_neg (by simp [hq])]
  exact sorted_isortBy leScore_total leScore_trans _

/-- Claim C8: on every in-bounds request with query "coffee", every
returned candidate whose name or description contains "coffee" is ranked
above (before) every returned candidate unrelated to coffee, whatever
distance function and formatter are used. -/
theorem claim_C8_coffee_ranked_first (dist : ℚ → ℚ → ℚ → ℚ → ℝ) (fmt : ℝ → String)
    (lat lng : ℚ) (h : is_within_service_area lat lng = true) :
    ∃ r, find_nearby_locations dist fmt lat lng "coffee" = .success r ∧
      r.nearest_locations.Pairwise
        (fun a b => hasCoffee b.poi = true → hasCoffee a.poi = true) := by
  refine ⟨_, find_nearby_locations_within dist fmt "coffee" lat lng h, ?_⟩
  have hq : ("coffee".data.isEmpty || (pyStrip "coffee".data).isEmpty) = false := by decide
  have hsorted := sorted_filter_by_query (isortBy ledist (annotated dist lat lng)) "coffee" hq
  have hmem : ∀ e ∈ filter_by_query (isortBy ledist (annotated dist lat lng)) "coffee",
      e.poi ∈ LOCATIONS ∧ e.relevance_score = scoreFor "coffee" e.poi :=
    fun e he => score_of_mem_filter dist lat lng "coffee" e hq he
  refine List.Pairwise.sublist (List.take_sublist 5 _) (hsorted.imp_of_mem ?_)
  intro a b ha hb hab hcb
  rcases hmem a ha with ⟨hpa, hsa⟩
  rcases hmem b hb with ⟨hpb, hsb⟩
  by_contra hca
  have hca' : hasCoffee a.poi = false := Bool.not_eq_true _ ▸ Bool.of_not_eq_true hca
  have hsa0 : scoreFor "coffee" a.poi = 0 := by
    rcases coffee_scores a.poi hpa with ⟨hc, _⟩ | ⟨_, hs⟩
    · rw [hca'] at hc; cases hc
    · exact hs
  have hsb13 : scoreFor "coffee" b.poi = 13 := by
    rcases coffee_scores b.poi hpb with ⟨_, hs⟩ | ⟨hc, _⟩
    · exact hs
    · rw [hcb] at hc; cases hc
  rcases hab with hlt | ⟨heq, _⟩
  · rw [hsa, hsb, hsa0, hsb13] at hlt
    norm_num at hlt
  · rw [hsa, hsb, hsa0, hsb13] at heq
    norm_num at heq

/-- Witness for C8 at the fixture's center coordinate. -/
theorem claim_C8_witness :
    ∃ r, find_nearby_locations (fun _ _ _ _ => (0 : ℝ)) (fun _ => "")
        40.7128 (-74.0060) "coffee" = .success r ∧
      r.nearest_locations.Pairwise
        (fun a b => hasCoffee b.poi = true → hasCoffee a.poi = true) :=
  claim_C8_coffee_ranked_first (fun _ _ _ _ => (0 : ℝ)) (fun _ => "") 40.7128 (-74.0060)
    (by norm_num [is_within_service_area, SERVICE_BOUNDS])

theorem map_self_of_fix (f : RankedPOI → RankedPOI) :
    ∀ l : List RankedPOI, (∀ e ∈ l, f e = e) → l.map f = l
  | [], _ => rfl
  | x :: t, h => by
    rw [List.map_cons, h x (List.mem_cons_self _ _),
      map_self_of_fix f t (fun e he => h e (List.mem_cons_of_mem _ he))]

/-- When no location scores any points for the query, the re-scoring map
inside `_filter_by_query` changes nothing. -/
theorem scored_map_id (dist : ℚ → ℚ → ℚ → ℚ → ℝ) (lat lng : ℚ) (q : String)
    (hzero : ∀ p ∈ LOCATIONS, scoreFor q p = 0) :
    (isortBy ledist (annotated dist lat lng)).map
        (fun e => { e with relevance_score := scoreFor q e.poi }) =
      isortBy ledist (annotated dist lat lng) := by
  apply map_self_of_fix
  intro e he
  rcases mem_sorted_candidates dist lat lng e he with ⟨h0, hp⟩
  have hz : scoreFor q e.poi = 0 := hzero _ hp
  cases e
  simp_all

/-- The distance-sorted candidate list is also sorted for the
(score, distance) key when every score is zero. -/
theorem sorted_candidates_leScore (dist : ℚ → ℚ → ℚ → ℚ → ℝ) (lat lng : ℚ) :
    (isortBy ledist (annotated dist lat lng)).Pairwise leScore := by
  refine (sorted_isortBy ledist_total ledist_trans (annotated dist lat lng)).imp_of_mem ?_
  intro a b ha hb hled
  exact Or.inr ⟨(mem_sorted_candidates dist lat lng a ha).1.trans
    (mem_sorted_candidates dist lat lng b hb).1.symm, hled⟩

/-- With a query of at most two words that matches nothing,
`_filter_by_query` returns its input unchanged (the fallback). -/
theorem filter_by_query_fallback (dist : ℚ → ℚ → ℚ → ℚ → ℝ) (lat lng : ℚ) (q : String)
    (hq : (q.data.isEmpty || (pyStrip q.data).isEmpty) = false)
    (hzero : ∀ p ∈ LOCATIONS, scoreFor q p = 0)
    (h2 : (splitWs (pyLower q)).length ≤ 2) :
    filter_by_query (isortBy ledist (annotated dist lat lng)) q =
      isortBy ledist (annotated dist lat lng) := by
  simp only [filter_by_query]
  rw [if_neg (by simp [hq]), scored_map_id dist lat lng q hzero]
  rw [List.filter_eq_self.mpr (fun a _ => by simp [h2])]
  exact isortBy_eq_self _ (sorted_candidates_leScore dist lat lng)

/-- With a query of more than two words that matches nothing,
`_filter_by_query` drops every candidate and returns the empty list. -/
theorem filter_by_query_empty (dist : ℚ → ℚ → ℚ → ℚ → ℝ) (lat lng : ℚ) (q : String)
    (hq : (q.data.isEmpty || (pyStrip q.data).isEmpty) = false)
    (hzero : ∀ p ∈ LOCATIONS, scoreFor q p = 0)
    (h2 : ¬(splitWs (pyLower q)).length ≤ 2) :
    filter_by_query (isortBy ledist (annotated dist lat lng)) q = [] := by
  simp only [filter_by_query]
  rw [if_neg (by simp [hq]), scored_map_id dist lat lng q hzero]
  have hfil : (isortBy ledist (annotated dist lat lng)).filter
      (fun e => decide (0 < e.relevance_score) ||
        decide ((splitWs (pyLower q)).length ≤ 2)) = [] := by
    apply List.filter_eq_nil_iff.mpr
    intro a ha
    rcases mem_sorted_candidates dist lat lng a ha with ⟨h0, _⟩
    simp [h0, h2]
  rw [hfil]
  rfl

/-- Claim C5 (amended): on an in-bounds request with a non-empty,
non-blank query none of whose keywords matches any candidate, the tool
falls back to the full distance-sorted candidate list (all 8 fixture
locations counted in `total_found`) only when the query has at most two
words; a matching-nothing query of three or more words instead yields an
empty result list with `total_found = 0`. -/
theorem claim_C5_amended (dist : ℚ → ℚ → ℚ → ℚ → ℝ) (fmt : ℝ → String)
    (lat lng : ℚ) (q : String)
    (hin : is_within_service_area lat lng = true)
    (hq : (q.data.isEmpty || (pyStrip q.data).isEmpty) = false)
    (hzero : ∀ p ∈ LOCATIONS, scoreFor q p = 0) :
    ((splitWs (pyLower q)).length ≤ 2 →
      ∃ r, find_nearby_locations dist fmt lat lng q = .success r ∧
        r.nearest_locations = (isortBy ledist (annotated dist lat lng)).take 5 ∧
        r.total_found = LOCATIONS.length) ∧
    (¬(splitWs (pyLower q)).length ≤ 2 →
      ∃ r, find_nearby_locations dist fmt lat lng q = .success r ∧
        r.nearest_locations = [] ∧ r.total_found = 0) := by
  constructor
  · intro h2
    refine ⟨_, find_nearby_locations_within dist fmt q lat lng hin, ?_, ?_⟩
    · show (filter_by_query (isortBy ledist (annotated dist lat lng)) q).take 5 =
        (isortBy ledist (annotated dist lat lng)).take 5
      rw [filter_by_query_fallback dist lat lng q hq hzero h2]
    · show (filter_by_query (isortBy ledist (annotated dist lat lng)) q).length =
        LOCATIONS.length
      rw [filter_by_query_fallback dist lat lng q hq hzero h2,
        (isortBy_perm ledist (annotated dist lat lng)).length_eq, annotated,
        List.length_map]
  · intro h2
    refine ⟨_, find_nearby_locations_within dist fmt q lat lng hin, ?_, ?_⟩
    · show (filter_by_query (isortBy ledist (annotated dist lat lng)) q).take 5 = []
      rw [filter_by_query_empty dist lat lng q hq hzero h2]
      rfl
    · show (filter_by_query (isortBy ledist (annotated dist lat lng)) q).length = 0
      rw [filter_by_query_empty dist lat lng q hq hzero h2]
      rfl

/-- Witness for the amended C5: the two-letter query "zz" matches
nothing and falls back to the full list. -/
theorem claim_C5_witness :
    ((splitWs (pyLower "zz")).length ≤ 2 →
      ∃ r, find_nearby_locations (fun _ _ _ _ => (0 : ℝ)) (fun _ => "")
          40.7128 (-74.0060) "zz" = .success r ∧
        r.nearest_locations =
          (isortBy ledist (annotated (fun _ _ _ _ => (0 : ℝ)) 40.7128 (-74.0060))).take 5 ∧
        r.total_found = LOCATIONS.length) ∧
    (¬(splitWs (pyLower "zz")).length ≤ 2 →
      ∃ r, find_nearby_locations (fun _ _ _ _ => (0 : ℝ)) (fun _ => "")
          40.7128 (-74.0060) "zz" = .success r ∧
        r.nearest_locations = [] ∧ r.total_found = 0) :=
  claim_C5_amended (fun _ _ _ _ => (0 : ℝ)) (fun _ => "") 40.7128 (-74.0060) "zz"
    (by norm_num [is_within_service_area, SERVICE_BOUNDS]) (by decide) (by decide)

/-- Counterexample to C5 as stated: the in-bounds request at the center
with the query "aaaa bbbb cccc" (three words, no keyword matching any
candidate) does not fall back to the full distance-sorted list of 8
candidates — it returns an empty result list with `total_found = 0`. -/
theorem claim_C5_counterexample :
    is_within_service_area 40.7128 (-74.0060) = true ∧
    LOCATIONS.length = 8 ∧
    (find_nearby_locations_real (fun _ => "") 40.7128 (-74.0060) "aaaa bbbb cccc").nearest =
      some [] ∧
    (find_nearby_locations_real (fun _ => "") 40.7128 (-74.0060) "aaaa bbbb cccc").totalFound =
      some 0 := by
  have hin : is_within_service_area 40.7128 (-74.0060) = true := by
    norm_num [is_within_service_area, SERVICE_BOUNDS]
  have hq : (("aaaa bbbb cccc" : String).data.isEmpty ||
      (pyStrip ("aaaa bbbb cccc" : String).data).isEmpty) = false := by decide
  have hzero : ∀ p ∈ LOCATIONS, scoreFor "aaaa bbbb cccc" p = 0 := by decide
  have h2 : ¬(splitWs (pyLower "aaaa bbbb cccc")).length ≤ 2 := by decide
  have hres := find_nearby_locations_within
    (fun a b c d => calculate_distance (a : ℝ) (b : ℝ) (c : ℝ) (d : ℝ)) (fun _ => "")
    "aaaa bbbb cccc" 40.7128 (-74.0060) hin
  have hemp := filter_by_query_empty
    (fun a b c d => calculate_distance (a : ℝ) (b : ℝ) (c : ℝ) (d : ℝ))
    40.7128 (-74.0060) "aaaa bbbb cccc" hq hzero h2
  refine ⟨hin, rfl, ?_, ?_⟩
  · simp only [find_nearby_locations_real]
    rw [hres]
    simp [LocResult.nearest, hemp]
  · simp only [find_nearby_locations_real]
    rw [hres]
    simp [LocResult.totalFound, hemp]

/-- Witness for C3 at the fixture's center coordinate. -/
theorem claim_C3_witness :
    ∃ r, app_find_nearby (some (.num 40.7128)) (some (.num (-74.0060))) "" = .success r ∧
      ∀ e ∈ r.nearest_locations, e.poi ∈ LOCATIONS ∧
        e.distance =
          round3 (calculate_distance ((40.7128 : ℚ) : ℝ) (((-74.0060 : ℚ)) : ℝ)
            (e.poi.lat : ℝ) (e.poi.lng : ℝ)) :=
  claim_C3_haversine_distances 40.7128 (-74.0060) ""
    (by norm_num [is_within_bounds, FIXED_BOUNDS])

/-- Witness for C7 at the fixture's center coordinate. -/
theorem claim_C7_witness :
    ∃ r, find_nearby_locations (fun _ _ _ _ => (0 : ℝ)) (fun _ => "")
        40.7128 (-74.0060) "coffee" = .success r ∧
      r.user_location = (40.7128, -74.0060) ∧
      r.nearest_locations =
        (filter_by_query
          (isortBy ledist (annotated (fun _ _ _ _ => (0 : ℝ)) 40.7128 (-74.0060)))
          "coffee").take 5 ∧
      r.nearest_locations.length ≤ 5 ∧
      r.total_found =
        (filter_by_query
          (isortBy ledist (annotated (fun _ _ _ _ => (0 : ℝ)) 40.7128 (-74.0060)))
          "coffee").length ∧
      r.nearest_locations.length ≤ r.total_found ∧
      (∀ e ∈ r.nearest_locations, e.poi ∈ LOCATIONS) ∧
      r.query = "coffee" ∧
      r.message = generate_location_response (fun _ => "") r.nearest_locations "coffee" ∧
      r.service_area = SERVICE_BOUNDS :=
  claim_C7_success_shape (fun _ _ _ _ => (0 : ℝ)) (fun _ => "") 40.7128 (-74.0060) "coffee"
    (by norm_num [is_within_service_area, SERVICE_BOUNDS])
